import Mathlib

/-!
Shallow embedding of the `ts-monads` library (src/Maybe.ts and src/Either.ts).

JavaScript values of a payload type `α` are modelled by `JS α`: either one of
the two absent sentinels (`null`, `undefined`) or a proper value `JS.val a`.
The two sentinels are kept distinct because `Maybe.getOrNull` and
`Maybe.getOrUndefined` return different sentinels, while every presence test
in the source (`value !== null && value !== undefined`) treats them alike.

Exceptions are modelled with `Except`: a TypeScript method that can `throw`
is embedded as a function returning `Except E T`.
-/

/-- A JavaScript-level value of payload type `α`: `null`, `undefined`, or a
proper value. -/
inductive JS (α : Type) where
  | vnull : JS α
  | vundef : JS α
  | val : α → JS α
deriving DecidableEq, Repr

/-- Either.isDefined from Either.ts: `value !== null && value !== undefined`.
The same test appears inline in Maybe.ts (`isNothing`, the `maybe` factory). -/
def JS.isDefined {α : Type} : JS α → Bool
  | JS.val _ => true
  | _ => false

/-- The effect of the normalisation `x ?? null` followed by storing into a
field of type `T | null`: `undefined` collapses to `null` (modelled `none`),
a proper value is kept. -/
def JS.toStored {α : Type} : JS α → Option α
  | JS.val a => some a
  | _ => none

/-- Reading a stored field of type `T | null` back as a JavaScript value
(it is passed on to constructors such as `left(this.left as L)`). -/
def Option.toJS {α : Type} : Option α → JS α
  | some a => JS.val a
  | none => JS.vnull

/-- EitherError from Either.ts: an Error subclass whose `name` is set to
"EitherError" by the constructor. -/
structure EitherError where
  name : String
  message : String
deriving DecidableEq, Repr

/-- The EitherError constructor: `super(message); this.name = 'EitherError'`. -/
def EitherError.make (message : String) : EitherError :=
  ⟨"EitherError", message⟩

/-- The message of the both-sides-present construction error. -/
def bothDefinedMsg : String := "Either can\x27t have both values defined."

/-- The message of the both-sides-absent construction error. -/
def requiresOneMsg : String := "Either requires a left or right value to be defined."

/-- The Either class from Either.ts.  Its two private fields have TypeScript
type `L | null` and `R | null`, modelled as `Option`.  The field `inv` records
the invariant that the validating constructor (the only way the source ever
builds an instance) establishes: exactly one side is present. -/
structure Either (L R : Type) where
  left : Option L
  right : Option R
  inv : left.isSome = !right.isSome

/-- The Either constructor: throws `bothDefinedMsg` when both arguments are
defined, `requiresOneMsg` when neither is, and otherwise stores
`left ?? null` and `right ?? null`. -/
def Either.make {L R : Type} (l : JS L) (r : JS R) : Except EitherError (Either L R) :=
  if h1 : JS.isDefined l && JS.isDefined r then
    Except.error (EitherError.make bothDefinedMsg)
  else if h2 : !JS.isDefined l && !JS.isDefined r then
    Except.error (EitherError.make requiresOneMsg)
  else
    Except.ok ⟨l.toStored, r.toStored, by
      cases l <;> cases r <;> simp_all [JS.isDefined, JS.toStored]⟩

/-- The left-of named constructor: `new Either<L, R>(value, null)`.
Exported from Either.ts under the name `left`; stated here inside the
`Either` namespace so that method bodies can refer to it (the plain name
`left` would be captured by the field projection there). -/
def Either.leftOf {L R : Type} (value : JS L) : Except EitherError (Either L R) :=
  Either.make value JS.vnull

/-- The right-of named constructor: `new Either<L, R>(null, value)`.
Exported from Either.ts under the name `right`. -/
def Either.rightOf {L R : Type} (value : JS R) : Except EitherError (Either L R) :=
  Either.make JS.vnull value

/-- The exported factory `left`: `new Either<L, R>(value, null)`. -/
def left {L R : Type} (value : JS L) : Except EitherError (Either L R) :=
  Either.leftOf value

/-- The exported factory `right`: `new Either<L, R>(null, value)`. -/
def right {L R : Type} (value : JS R) : Except EitherError (Either L R) :=
  Either.rightOf value

/-- Either.isRight: `Either.isDefined(this.right)` on the stored field. -/
def Either.isRight {L R : Type} (e : Either L R) : Bool :=
  e.right.isSome

/-- Either.isLeft: `!this.isRight()`. -/
def Either.isLeft {L R : Type} (e : Either L R) : Bool :=
  !e.isRight

/-- The valid left-holding instance, i.e. the successful result of
`left(v)` for a defined `v`. -/
def Either.mkLeft {L R : Type} (v : L) : Either L R :=
  ⟨some v, none, by simp⟩

/-- The valid right-holding instance, i.e. the successful result of
`right(v)` for a defined `v`. -/
def Either.mkRight {L R : Type} (v : R) : Either L R :=
  ⟨none, some v, by simp⟩

/-- Either.map: `this.isRight() ? right<L, U>(fn(this.right as R))
: left<L, U>(this.left as L)`.  The branch on `isRight` is the match on the
stored `right` field; the left branch passes the stored left value straight
back into the `left` factory. -/
def Either.map {L R U : Type} (e : Either L R) (fn : R → JS U) :
    Except EitherError (Either L U) :=
  match e.right with
  | some r => rightOf (fn r)
  | none => leftOf e.left.toJS

/-- Either.mapLeft: `this.isRight() ? right<U, R>(this.right as R)
: left<U, R>(fn(this.left as L))`.  When `right` is absent the invariant
forces `left` to be present, so the argument handed to `fn` is its payload. -/
def Either.mapLeft {L R U : Type} (e : Either L R) (fn : L → JS U) :
    Except EitherError (Either U R) :=
  match hr : e.right with
  | some r => rightOf (JS.val r)
  | none =>
    match hl : e.left with
    | some l => leftOf (fn l)
    | none => False.elim (by have h := e.inv; rw [hr, hl] at h; simp at h)

/-- Either.flatMap: `this.isRight() ? fn(this.right as R)
: left<L, U>(this.left as L)`. -/
def Either.flatMap {L R U : Type} (e : Either L R) (fn : R → Either L U) :
    Except EitherError (Either L U) :=
  match e.right with
  | some r => Except.ok (fn r)
  | none => leftOf e.left.toJS

/-- Either.getOrThrow: `if (this.isLeft()) { throw error; } return this.right
as R;` — `isLeft()` holds exactly when the stored `right` is absent. -/
def Either.getOrThrow {L R E : Type} (e : Either L R) (error : E) : Except E R :=
  match e.right with
  | some r => Except.ok r
  | none => Except.error error

/-- The Maybe class from Maybe.ts: a single private field of TypeScript type
`T | null | undefined` (no normalisation is applied on construction). -/
structure Maybe (T : Type) where
  value : JS T
deriving DecidableEq, Repr

/-- Maybe.just: `new Maybe(value)`. -/
def Maybe.just {U : Type} (value : JS U) : Maybe U :=
  ⟨value⟩

/-- Maybe.nothing: `new Maybe<U>(null)`. -/
def Maybe.nothing {U : Type} : Maybe U :=
  ⟨JS.vnull⟩

/-- Maybe.isNothing: `this.value === null || this.value === undefined`. -/
def Maybe.isNothing {T : Type} (m : Maybe T) : Bool :=
  match m.value with
  | JS.vnull => true
  | JS.vundef => true
  | JS.val _ => false

/-- Maybe.isJust: `!this.isNothing()`. -/
def Maybe.isJust {T : Type} (m : Maybe T) : Bool :=
  !m.isNothing

/-- Maybe.map: `this.isNothing() ? Maybe.nothing() : Maybe.just(fn(this.value
as T))`.  The callback may itself produce an absent sentinel, which `just`
stores as is. -/
def Maybe.map {T U : Type} (m : Maybe T) (fn : T → JS U) : Maybe U :=
  match m.value with
  | JS.val v => Maybe.just (fn v)
  | _ => Maybe.nothing

/-- Maybe.flatMap: `this.isNothing() ? Maybe.nothing() : fn(this.value as T)`. -/
def Maybe.flatMap {T U : Type} (m : Maybe T) (fn : T → Maybe U) : Maybe U :=
  match m.value with
  | JS.val v => fn v
  | _ => Maybe.nothing

/-- Maybe.getOrElse: `this.isNothing() ? value : (this.value as T)`. -/
def Maybe.getOrElse {T : Type} (m : Maybe T) (value : T) : T :=
  match m.value with
  | JS.val v => v
  | _ => value

/-- Maybe.getOrNull: `this.isNothing() ? null : this.value as T`. -/
def Maybe.getOrNull {T : Type} (m : Maybe T) : JS T :=
  match m.value with
  | JS.val v => JS.val v
  | _ => JS.vnull

/-- Maybe.getOrUndefined: `this.isNothing() ? undefined : this.value as T`. -/
def Maybe.getOrUndefined {T : Type} (m : Maybe T) : JS T :=
  match m.value with
  | JS.val v => JS.val v
  | _ => JS.vundef

/-- Maybe.getOrThrow: `if (this.isNothing()) { throw error; } return
this.value as T;` — the thrown value is exactly the caller's argument. -/
def Maybe.getOrThrow {T E : Type} (m : Maybe T) (error : E) : Except E T :=
  match m.value with
  | JS.val v => Except.ok v
  | _ => Except.error error

/-- Maybe.getOrElseGet: `this.isNothing() ? supplier() : this.value as T`. -/
def Maybe.getOrElseGet {T : Type} (m : Maybe T) (supplier : Unit → T) : T :=
  match m.value with
  | JS.val v => v
  | _ => supplier ()

/-- The exported factory `maybe`: `v !== null && v !== undefined
? Maybe.just(v) : Maybe.nothing<T>()`. -/
def maybe {T : Type} (v : JS T) : Maybe T :=
  if v.isDefined then Maybe.just v else Maybe.nothing

theorem left_val_eq {L R : Type} (v : L) :
    left (R := R) (JS.val v) = Except.ok (Either.mkLeft v) := rfl

theorem right_val_eq {L R : Type} (v : R) :
    right (L := L) (JS.val v) = Except.ok (Either.mkRight v) := rfl

theorem left_null_eq {L R : Type} :
    left (L := L) (R := R) JS.vnull =
      Except.error (EitherError.make requiresOneMsg) := rfl

theorem left_undef_eq {L R : Type} :
    left (L := L) (R := R) JS.vundef =
      Except.error (EitherError.make requiresOneMsg) := rfl

theorem right_null_eq {L R : Type} :
    right (L := L) (R := R) JS.vnull =
      Except.error (EitherError.make requiresOneMsg) := rfl

theorem right_undef_eq {L R : Type} :
    right (L := L) (R := R) JS.vundef =
      Except.error (EitherError.make requiresOneMsg) := rfl

/-- Every instance is either the canonical left-holding or the canonical
right-holding one: a consequence of the construction invariant. -/
theorem either_cases {L R : Type} (e : Either L R) :
    (∃ l, e = Either.mkLeft l) ∨ (∃ r, e = Either.mkRight r) := by
  obtain ⟨el, er, hinv⟩ := e
  cases el <;> cases er
  · exact absurd hinv (by simp)
  · exact Or.inr ⟨_, rfl⟩
  · exact Or.inl ⟨_, rfl⟩
  · exact absurd hinv (by simp)

theorem mkLeft_mapLeft {L R U : Type} (l : L) (g : L → JS U) :
    (Either.mkLeft (R := R) l).mapLeft g = Either.leftOf (g l) := rfl

theorem mkRight_map {L R U : Type} (r : R) (fn : R → JS U) :
    (Either.mkRight (L := L) r).map fn = Either.rightOf (fn r) := rfl

/-- Exactly one of the two predicates holds on any instance: `isLeft` is
defined as the boolean negation of `isRight`. -/
theorem either_xor {L R : Type} (e : Either L R) :
    (e.isLeft = true ∧ e.isRight = false) ∨ (e.isLeft = false ∧ e.isRight = true) := by
  rcases either_cases e with ⟨l, rfl⟩ | ⟨r, rfl⟩
  · exact Or.inl ⟨rfl, rfl⟩
  · exact Or.inr ⟨rfl, rfl⟩

/-- C1 counterexample: the claim quantifies over every input value including
null, but `left(null)` is `new Either(null, null)`, which raises the
requires-one ConstructionError rather than constructing an instance. -/
theorem left_of_null_raises :
    left (L := Int) (R := Int) JS.vnull =
      Except.error (EitherError.make requiresOneMsg) := rfl

/-- C1 (amended): for every defined input value, `left(v)` and `right(v)`
construct a valid instance and never raise (in particular they can never hit
the both-defined check); for a null or undefined input they raise the
requires-one ConstructionError, because both constructor arguments are then
absent. -/
theorem left_right_defined_behavior {L R : Type} (vl : L) (vr : R) :
    left (R := R) (JS.val vl) = Except.ok (Either.mkLeft vl) ∧
    right (L := L) (JS.val vr) = Except.ok (Either.mkRight vr) ∧
    left (L := L) (R := R) JS.vnull = Except.error (EitherError.make requiresOneMsg) ∧
    left (L := L) (R := R) JS.vundef = Except.error (EitherError.make requiresOneMsg) ∧
    right (L := L) (R := R) JS.vnull = Except.error (EitherError.make requiresOneMsg) ∧
    right (L := L) (R := R) JS.vundef = Except.error (EitherError.make requiresOneMsg) :=
  ⟨rfl, rfl, rfl, rfl, rfl, rfl⟩

/-- C3: `Maybe.just(v)` on a proper value is present (`isJust()` is true) and
`Maybe.nothing()` is absent (`isJust()` is false). -/
theorem just_present_nothing_absent {U : Type} (v : U) :
    (Maybe.just (JS.val v)).isJust = true ∧ (Maybe.nothing (U := U)).isJust = false :=
  ⟨rfl, rfl⟩

/-- C5: raw construction of the disjoint union — both absent raises the
requires-one error, both present raises the both-defined error, one present
side yields the corresponding Left or Right, and the two messages are
distinct. -/
theorem either_construction_cases :
    Either.make (L := Int) (R := String) JS.vnull JS.vnull =
        Except.error (EitherError.make requiresOneMsg) ∧
    Either.make (JS.val (5 : Int)) (JS.val "x") =
        Except.error (EitherError.make bothDefinedMsg) ∧
    Either.make (R := String) (JS.val (5 : Int)) JS.vnull =
        Except.ok (Either.mkLeft 5) ∧
    (Either.mkLeft (R := String) (5 : Int)).isLeft = true ∧
    Either.make (L := Int) JS.vnull (JS.val "x") = Except.ok (Either.mkRight "x") ∧
    (Either.mkRight (L := Int) "x").isRight = true ∧
    bothDefinedMsg ≠ requiresOneMsg :=
  ⟨rfl, rfl, rfl, rfl, rfl, rfl, by decide⟩

/-- C6: functor composition for the optional container — mapping a present
container through `f` and then `g` is mapping it once through their
composition, for pure `f` and `g`. -/
theorem maybe_map_comp {T U W : Type} (v : T) (f : T → U) (g : U → W) :
    ((Maybe.just (JS.val v)).map (fun x => JS.val (f x))).map (fun x => JS.val (g x)) =
      (Maybe.just (JS.val v)).map (fun x => JS.val (g (f x))) := rfl

/-- C7: the factory on any non-sentinel value — among them falsy payloads
such as 0, "" and false — yields a present container whose `getOrElse`
returns the stored value for every default. -/
theorem maybe_defined_present {T : Type} (v d : T) :
    (maybe (JS.val v)).isJust = true ∧
    (maybe (JS.val v)).getOrElse d = v ∧
    (maybe (JS.val (0 : Int))).isJust = true ∧
    (maybe (JS.val "")).isJust = true ∧
    (maybe (JS.val false)).isJust = true :=
  ⟨rfl, rfl, rfl, rfl, rfl⟩


/-- C2: mapping a right-holding instance with a pure value-returning function
yields a right-holding instance carrying the function's result (so `map`
never turns a Right into a Left), while mapping a left-holding instance
yields a left-holding instance with the same left value, for every callback
whatsoever — the callback is not applied there. -/
theorem either_map_spec {L R U : Type} (e : Either L R) (f : R → U) :
    (e.isRight = true →
      ∃ r e', e.right = some r ∧
        e.map (fun x => JS.val (f x)) = Except.ok e' ∧
        e'.isRight = true ∧ e'.right = some (f r)) ∧
    (e.isLeft = true →
      ∃ l e', e.left = some l ∧ e'.isLeft = true ∧ e'.left = some l ∧
        ∀ fn : R → JS U, e.map fn = Except.ok e') := by
  rcases either_cases e with ⟨l, rfl⟩ | ⟨r, rfl⟩
  · constructor
    · intro h
      exact absurd h (by simp [Either.mkLeft, Either.isRight])
    · intro _
      exact ⟨l, Either.mkLeft l, rfl, rfl, rfl, fun fn => rfl⟩
  · constructor
    · intro _
      exact ⟨r, Either.mkRight (f r), rfl, rfl, rfl, rfl⟩
    · intro h
      exact absurd h (by simp [Either.mkRight, Either.isLeft, Either.isRight])

/-- C2 witness at a concrete Right and a concrete Left. -/
theorem either_map_spec_wit :
    (∃ r e', (Either.mkRight (L := String) (1 : Int)).right = some r ∧
      (Either.mkRight (L := String) (1 : Int)).map (fun x => JS.val (x + 1)) =
        Except.ok e' ∧
      e'.isRight = true ∧ e'.right = some (r + 1)) ∧
    (∃ l e', (Either.mkLeft (R := Int) "e").left = some l ∧
      e'.isLeft = true ∧ e'.left = some l ∧
      ∀ fn : Int → JS Int, (Either.mkLeft (R := Int) "e").map fn = Except.ok e') := by
  refine ⟨?_, (either_map_spec (Either.mkLeft "e") (fun x : Int => x + 1)).2 rfl⟩
  obtain ⟨r, e', h1, h2, h3, h4⟩ :=
    (either_map_spec (Either.mkRight (L := String) (1 : Int)) (fun x => x + 1)).1 rfl
  exact ⟨r, e', h1, h2, h3, h4⟩

/-- C4: when the callback handed to `map` on a right-holding instance returns
an absent sentinel, the re-wrapping `right(fn(...))` constructs
`new Either(null, null)` and raises the requires-one EitherError; `mapLeft`
on a left-holding instance behaves symmetrically. -/
theorem either_map_absent_result_raises {L R U V : Type} (e : Either L R)
    (fn : R → JS U) (g : L → JS V) :
    (∀ r, e.right = some r → (fn r).isDefined = false →
      e.map fn = Except.error (EitherError.make requiresOneMsg)) ∧
    (∀ l, e.right = none → e.left = some l → (g l).isDefined = false →
      e.mapLeft g = Except.error (EitherError.make requiresOneMsg)) := by
  rcases either_cases e with ⟨l0, rfl⟩ | ⟨r0, rfl⟩
  · constructor
    · intro r hr _
      simp [Either.mkLeft] at hr
    · intro l _ hll hg
      obtain rfl : l0 = l := by simpa [Either.mkLeft] using hll
      rw [mkLeft_mapLeft]
      rcases hv : g l0 with _ | _ | v
      · rfl
      · rfl
      · rw [hv] at hg
        simp [JS.isDefined] at hg
  · constructor
    · intro r hrr hfn
      obtain rfl : r0 = r := by simpa [Either.mkRight] using hrr
      rw [mkRight_map]
      rcases hv : fn r0 with _ | _ | v
      · rfl
      · rfl
      · rw [hv] at hfn
        simp [JS.isDefined] at hfn
    · intro l hrn _ _
      simp [Either.mkRight] at hrn

/-- C4 witness: a null-returning callback under `map` on a Right, and an
undefined-returning callback under `mapLeft` on a Left. -/
theorem either_map_absent_result_raises_wit :
    (Either.mkRight (L := String) (1 : Int)).map (fun _ => (JS.vnull : JS Int)) =
        Except.error (EitherError.make requiresOneMsg) ∧
    (Either.mkLeft (R := Int) "e").mapLeft (fun _ => (JS.vundef : JS Int)) =
        Except.error (EitherError.make requiresOneMsg) :=
  ⟨(either_map_absent_result_raises (Either.mkRight (L := String) (1 : Int))
      (fun _ => (JS.vnull : JS Int)) (fun _ : String => (JS.vundef : JS Int))).1 1 rfl rfl,
   (either_map_absent_result_raises (Either.mkLeft (R := Int) "e")
      (fun _ : Int => (JS.vnull : JS Int)) (fun _ => (JS.vundef : JS Int))).2 "e" rfl rfl rfl⟩

/-- C8: `getOrThrow` on an absent optional container or a left-holding
disjoint union fails with exactly the caller-supplied error value, of an
arbitrary error type, returned untouched; when the queried side is present
it returns the stored value without failing. -/
theorem getOrThrow_exact_error {T L R E : Type} (m : Maybe T) (e : Either L R) (err : E) :
    (m.isJust = false → m.getOrThrow err = Except.error err) ∧
    (∀ v, m.value = JS.val v → m.getOrThrow err = Except.ok v) ∧
    (e.isLeft = true → e.getOrThrow err = Except.error err) ∧
    (∀ r, e.right = some r → e.getOrThrow err = Except.ok r) := by
  obtain ⟨mv⟩ := m
  rcases either_cases e with ⟨l0, rfl⟩ | ⟨r0, rfl⟩ <;> refine ⟨?_, ?_, ?_, ?_⟩
  · intro h
    cases mv <;> first | rfl | simp [Maybe.isJust, Maybe.isNothing] at h
  · intro v hv
    cases hv
    rfl
  · intro _
    rfl
  · intro r hr
    simp [Either.mkLeft] at hr
  · intro h
    cases mv <;> first | rfl | simp [Maybe.isJust, Maybe.isNothing] at h
  · intro v hv
    cases hv
    rfl
  · intro h
    simp [Either.mkRight, Either.isLeft, Either.isRight] at h
  · intro r hr
    obtain rfl : r0 = r := by simpa [Either.mkRight] using hr
    rfl

/-- C8 witness at concrete absent and present containers, with a string as
the caller-supplied error value. -/
theorem getOrThrow_exact_error_wit :
    (Maybe.nothing (U := Int)).getOrThrow "boom" = Except.error "boom" ∧
    (Maybe.just (JS.val (7 : Int))).getOrThrow "boom" = Except.ok 7 ∧
    (Either.mkLeft (R := Int) "e").getOrThrow "boom" = Except.error "boom" ∧
    (Either.mkRight (L := String) (42 : Int)).getOrThrow "boom" = Except.ok 42 :=
  ⟨(getOrThrow_exact_error (Maybe.nothing (U := Int))
      (Either.mkLeft (R := Int) "e") "boom").1 rfl,
   (getOrThrow_exact_error (Maybe.just (JS.val (7 : Int)))
      (Either.mkLeft (R := Int) "e") "boom").2.1 7 rfl,
   (getOrThrow_exact_error (Maybe.nothing (U := Int))
      (Either.mkLeft (R := Int) "e") "boom").2.2.1 rfl,
   (getOrThrow_exact_error (Maybe.nothing (U := Int))
      (Either.mkRight (L := String) (42 : Int)) "boom").2.2.2 42 rfl⟩

/-- C9: on an absent optional container, `getOrElse` returns the default,
`getOrNull` returns null, `getOrUndefined` returns undefined, and `map`
yields an absent container whose value is independent of the callback (the
callback is never invoked: the absent branch of `map` does not mention it). -/
theorem maybe_absent_accessors {T U : Type} (m : Maybe T) (d : T) :
    m.isJust = false →
      m.getOrElse d = d ∧ m.getOrNull = JS.vnull ∧ m.getOrUndefined = JS.vundef ∧
      (∀ f g : T → JS U, m.map f = m.map g) ∧
      (∀ f : T → JS U, (m.map f).isJust = false) := by
  obtain ⟨mv⟩ := m
  intro h
  cases mv
  · exact ⟨rfl, rfl, rfl, fun f g => rfl, fun f => rfl⟩
  · exact ⟨rfl, rfl, rfl, fun f g => rfl, fun f => rfl⟩
  · simp [Maybe.isJust, Maybe.isNothing] at h

/-- C9 witness at the concrete absent container. -/
theorem maybe_absent_accessors_wit :
    (Maybe.nothing (U := Int)).getOrElse 5 = 5 ∧
    (Maybe.nothing (U := Int)).getOrNull = JS.vnull ∧
    (Maybe.nothing (U := Int)).getOrUndefined = JS.vundef ∧
    (Maybe.nothing (U := Int)).map (fun n => JS.val (n + 1)) =
      (Maybe.nothing (U := Int)).map (fun _ => (JS.vnull : JS Int)) ∧
    ((Maybe.nothing (U := Int)).map (fun n => JS.val (n * 2))).isJust = false :=
  ⟨(maybe_absent_accessors (U := Int) (Maybe.nothing (U := Int)) 5 rfl).1,
   (maybe_absent_accessors (U := Int) (Maybe.nothing (U := Int)) 5 rfl).2.1,
   (maybe_absent_accessors (U := Int) (Maybe.nothing (U := Int)) 5 rfl).2.2.1,
   (maybe_absent_accessors (U := Int) (Maybe.nothing (U := Int)) 5 rfl).2.2.2.1
     (fun n => JS.val (n + 1)) (fun _ => JS.vnull),
   (maybe_absent_accessors (U := Int) (Maybe.nothing (U := Int)) 5 rfl).2.2.2.2
     (fun n => JS.val (n * 2))⟩

/-- C10: exactly one of `isLeft()`/`isRight()` holds on every constructible
instance, and on the instance produced whenever `map`, `mapLeft` or
`flatMap` returns one. -/
theorem either_exactly_one_side {L R U : Type} (e : Either L R) :
    ((e.isLeft = true ∧ e.isRight = false) ∨ (e.isLeft = false ∧ e.isRight = true)) ∧
    (∀ (fn : R → JS U) e', e.map fn = Except.ok e' →
      (e'.isLeft = true ∧ e'.isRight = false) ∨ (e'.isLeft = false ∧ e'.isRight = true)) ∧
    (∀ (g : L → JS U) e', e.mapLeft g = Except.ok e' →
      (e'.isLeft = true ∧ e'.isRight = false) ∨ (e'.isLeft = false ∧ e'.isRight = true)) ∧
    (∀ (k : R → Either L U) e', e.flatMap k = Except.ok e' →
      (e'.isLeft = true ∧ e'.isRight = false) ∨ (e'.isLeft = false ∧ e'.isRight = true)) :=
  ⟨either_xor e, fun _ e' _ => either_xor e', fun _ e' _ => either_xor e',
   fun _ e' _ => either_xor e'⟩

/-- C10 witness: the property at a concrete Right and at the concrete
results of `map`, `mapLeft` and `flatMap` on it. -/
theorem either_exactly_one_side_wit :
    (((Either.mkRight (L := String) (1 : Int)).isLeft = true ∧
        (Either.mkRight (L := String) (1 : Int)).isRight = false) ∨
      ((Either.mkRight (L := String) (1 : Int)).isLeft = false ∧
        (Either.mkRight (L := String) (1 : Int)).isRight = true)) ∧
    (((Either.mkRight (L := String) (5 : Int)).isLeft = true ∧
        (Either.mkRight (L := String) (5 : Int)).isRight = false) ∨
      ((Either.mkRight (L := String) (5 : Int)).isLeft = false ∧
        (Either.mkRight (L := String) (5 : Int)).isRight = true)) ∧
    (((Either.mkRight (L := Int) (1 : Int)).isLeft = true ∧
        (Either.mkRight (L := Int) (1 : Int)).isRight = false) ∨
      ((Either.mkRight (L := Int) (1 : Int)).isLeft = false ∧
        (Either.mkRight (L := Int) (1 : Int)).isRight = true)) ∧
    (((Either.mkRight (L := String) (7 : Int)).isLeft = true ∧
        (Either.mkRight (L := String) (7 : Int)).isRight = false) ∨
      ((Either.mkRight (L := String) (7 : Int)).isLeft = false ∧
        (Either.mkRight (L := String) (7 : Int)).isRight = true)) :=
  ⟨(either_exactly_one_side (U := Int) (Either.mkRight (L := String) (1 : Int))).1,
   (either_exactly_one_side (Either.mkRight (L := String) (1 : Int))).2.1
     (fun _ => JS.val (5 : Int)) (Either.mkRight 5) rfl,
   (either_exactly_one_side (Either.mkRight (L := String) (1 : Int))).2.2.1
     (fun _ => JS.val (0 : Int)) (Either.mkRight 1) rfl,
   (either_exactly_one_side (Either.mkRight (L := String) (1 : Int))).2.2.2
     (fun _ => Either.mkRight (7 : Int)) (Either.mkRight 7) rfl⟩
